import Mathlib

/-!
Shallow embedding of the BLE ring session/protocol engine implemented in
`src/services/RingDataService.ts` (the `useRingDataCollector` hook), together
with theorems settling the specification claims about it.

Modelling conventions:
  - JavaScript numbers that are always small integers are modelled as `Nat`
    or `Int`; `Uint8Array` element storage applies the JS `ToUint8` coercion
    (`NaN ↦ 0`, otherwise value mod 256).
  - A JS value that may be `undefined`/`NaN` is modelled as `Option`.
  - The mutable React state and refs of the hook are gathered into one
    `EngineState` record; each `async` operation of the hook becomes a pure
    state-transition function.  External effects (BLE writes, disconnects,
    CSV file writes, listener registrations) are counted by instrumentation
    fields so that frame conditions can be stated.  The outcome of external
    calls (scan result, connect success, batch-upload success, CSV write
    success) is passed in as an explicit oracle argument.
-/

/-! ## Character and hex-string utilities (JS semantics) -/

/-- The character class `[0-9a-fA-F]` used by the hex heuristics, expressed on
code points (48-57 = `0`-`9`, 97-102 = `a`-`f`, 65-70 = `A`-`F`). -/
def isHexDigit (c : Char) : Bool :=
  (48 ≤ c.toNat && c.toNat ≤ 57) || (97 ≤ c.toNat && c.toNat ≤ 102) ||
    (65 ≤ c.toNat && c.toNat ≤ 70)

/-- Numeric value of a hex digit; `0` on non-hex input (only applied to hex
digits in practice). -/
def hexVal (c : Char) : Nat :=
  if 48 ≤ c.toNat ∧ c.toNat ≤ 57 then c.toNat - 48
  else if 97 ≤ c.toNat ∧ c.toNat ≤ 102 then c.toNat - 97 + 10
  else if 65 ≤ c.toNat ∧ c.toNat ≤ 70 then c.toNat - 65 + 10
  else 0

/-- ASCII whitespace stripped by JS `parseInt` (space 32, tab 9, LF 10,
CR 13, VT 11, FF 12). -/
def jsIsSpace (c : Char) : Bool :=
  c.toNat = 32 || c.toNat = 9 || c.toNat = 10 || c.toNat = 13 ||
    c.toNat = 11 || c.toNat = 12

/-- JS `parseInt(s, 16)`: strip leading whitespace, an optional sign
(code points 45 `-`, 43 `+`), an optional `0x`/`0X` prefix (48 `0`, then
120 `x` or 88 `X`), then read the maximal prefix of hex digits; the result
is `NaN` (modelled `none`) when no digit is read. -/
def jsParseIntHex (cs : List Char) : Option Int :=
  let cs1 := cs.dropWhile jsIsSpace
  let neg := cs1.head?.any (fun c => c.toNat = 45)
  let cs2 := if cs1.head?.any (fun c => c.toNat = 45 || c.toNat = 43) then cs1.tail else cs1
  let cs3 :=
    if cs2.head?.any (fun c => c.toNat = 48) &&
        cs2.tail.head?.any (fun c => c.toNat = 120 || c.toNat = 88) then cs2.tail.tail
    else cs2
  let digits := cs3.takeWhile isHexDigit
  if digits.isEmpty then none
  else
    let mag : Int := digits.foldl (fun a c => 16 * a + (hexVal c : Nat)) 0
    some (if neg then -mag else mag)

/-- The byte-parsing loop of `createCommand`:
`for (i = 0; i < hexString.length; i += 2) parseInt(hexString.substr(i, 2), 16)`.
An odd-length string makes the last `substr` a single character. -/
def parsePairs : List Char → List (Option Int)
  | [] => []
  | [c] => [jsParseIntHex [c]]
  | c1 :: c2 :: rest => jsParseIntHex [c1, c2] :: parsePairs rest

/-- JS `Uint8Array` element storage: `NaN` becomes `0`, other integers are
reduced mod 256 (two's-complement low byte). -/
def toUint8 (x : Option Int) : Nat :=
  match x with
  | none => 0
  | some v => ((v % 256 + 256) % 256).toNat

/-- JS `sum + byte` folded over the array: one `NaN` poisons the sum. -/
def addOpt : Option Int → Option Int → Option Int
  | some a, some b => some (a + b)
  | _, _ => none

/-- `createCommand` from `RingDataService.ts` (lines 62-75): parse the hex
string two characters at a time, pad the byte array with zeros up to length
15, append `(sum of the array) & 0xff` as checksum (`NaN & 0xff` is `0` in
JS), and store everything in a `Uint8Array`.  The function performs no input
validation and cannot fail. -/
def createCommand (hexString : String) : List Nat :=
  let parsed := parsePairs hexString.data
  let padded := parsed ++ List.replicate (15 - parsed.length) (some 0)
  let sum := padded.foldl addOpt (some 0)
  let checksum : Int :=
    match sum with
    | none => 0
    | some v => (v % 256 + 256) % 256
  (padded ++ [some checksum]).map toUint8

/-- Plain hex-pair decoding, written from the specification's words for the
refinement comparison in claim C7: "decodes to bytes" of an even-length hex
string. -/
def decodeHexPairs : List Char → List Nat
  | c1 :: c2 :: rest => (16 * hexVal c1 + hexVal c2) :: decodeHexPairs rest
  | _ => []

/-- Validity condition of the specification for `createCommand` inputs: all
characters hex digits, even length, at most 30 hex digits (15 bytes). -/
def validCommandHex (s : String) : Bool :=
  s.data.all isHexDigit && s.data.length % 2 == 0 && s.data.length ≤ 30

/-! ## Packet decoder -/

/-- Lowercase hex digit character for a value below 16 (as produced by
`b.toString(16)`). -/
def hexChar (n : Nat) : Char :=
  if n < 10 then Char.ofNat (48 + n) else Char.ofNat (87 + n)

/-- `bytes.map(b => b.toString(16).padStart(2, '0')).join('')` for byte
values below 256. -/
def bytesToHex (bs : List Nat) : String :=
  String.mk ((bs.map (fun b => [hexChar (b / 16 % 16), hexChar (b % 16)])).flatten)

/-- One decoded sample entry, with the exact field set built by
`handleNotification` (lines 372-379).  All reading fields start as `null`
and are modelled `Option`; a field that JS sets to an out-of-range
(`undefined`) array read stays absent. -/
structure Entry where
  timestamp : Nat
  label : String
  payload : String
  accX : Option Int
  accY : Option Int
  accZ : Option Int
  ppg : Option Int
  ppg_max : Option Int
  ppg_min : Option Int
  ppg_diff : Option Int
  spo2 : Option Int
  spo2_max : Option Int
  spo2_min : Option Int
  spo2_diff : Option Int
deriving DecidableEq, Repr

/-- Reading `bytes[i]` inside an arithmetic expression: an out-of-range read
gives `undefined`, and `ToInt32(NaN) = 0` under `<<`, `|`, `&`. -/
def byteAt (bs : List Nat) (i : Nat) : Nat := (bs.get? i).getD 0

/-- Sign extension used for the 12-bit accelerometer axes:
`if (val & 0x0800) val -= 0x1000`. -/
def signExt12 (v : Nat) : Int :=
  if v &&& 0x800 ≠ 0 then (v : Int) - 0x1000 else (v : Int)

/-- The pure decoding part of `handleNotification` (lines 367-417): returns
the entry appended to the log, or `none` when the notification is ignored
(empty frame, or header byte other than `0xA1`).  An unknown subtype under
header `0xA1` still appends an entry with all reading fields absent. -/
def parseNotification (bytes : List Nat) (label : String) (timestamp : Nat) : Option Entry :=
  if bytes.isEmpty then none
  else
    let base : Entry :=
      { timestamp := timestamp, label := label, payload := bytesToHex bytes
        accX := none, accY := none, accZ := none
        ppg := none, ppg_max := none, ppg_min := none, ppg_diff := none
        spo2 := none, spo2_max := none, spo2_min := none, spo2_diff := none }
    if bytes.get? 0 = some 0xA1 then
      let subtype := bytes.get? 1
      if subtype = some 0x01 then
        -- SpO2: 16-bit big-endian value, then direct byte reads
        some { base with
          spo2 := some (((byteAt bytes 2 <<< 8) ||| byteAt bytes 3 : Nat) : Int)
          spo2_max := (bytes.get? 5).map (fun b => (b : Int))
          spo2_min := (bytes.get? 7).map (fun b => (b : Int))
          spo2_diff := (bytes.get? 9).map (fun b => (b : Int)) }
      else if subtype = some 0x02 then
        -- PPG: four 16-bit big-endian fields
        some { base with
          ppg := some (((byteAt bytes 2 <<< 8) ||| byteAt bytes 3 : Nat) : Int)
          ppg_max := some (((byteAt bytes 4 <<< 8) ||| byteAt bytes 5 : Nat) : Int)
          ppg_min := some (((byteAt bytes 6 <<< 8) ||| byteAt bytes 7 : Nat) : Int)
          ppg_diff := some (((byteAt bytes 8 <<< 8) ||| byteAt bytes 9 : Nat) : Int) }
      else if subtype = some 0x03 then
        -- Accelerometer: nibble-packed signed 12-bit axes
        some { base with
          accX := some (signExt12 ((byteAt bytes 6 <<< 4) ||| (byteAt bytes 7 &&& 0x0f)))
          accY := some (signExt12 ((byteAt bytes 2 <<< 4) ||| (byteAt bytes 3 &&& 0x0f)))
          accZ := some (signExt12 ((byteAt bytes 4 <<< 4) ||| (byteAt bytes 5 &&& 0x0f))) }
      else
        some base
    else none

/-! ## Delivery pipeline -/

/-- `UPLOAD_BATCH_SIZE` from line 215. -/
def UPLOAD_BATCH_SIZE : Nat := 50

/-- The upload buffer ref together with the single-flight busy flag. -/
structure PipeState (α : Type) where
  buffer : List α
  isUploading : Bool
deriving DecidableEq, Repr

/-- `flushIfNeeded` (lines 352-365): no-op while an upload is in flight or
while fewer than `UPLOAD_BATCH_SIZE` records are buffered; otherwise splice
the fixed-size front chunk out, send it, and on failure concatenate the chunk
back in front of the buffer.  Returns the new state, the delivered batch when
the send succeeded, and whether a send was attempted.  `ok` is the outcome of
`sendBatchToServer` for this attempt. -/
def flushIfNeeded (ok : Bool) (st : PipeState α) : PipeState α × Option (List α) × Bool :=
  if st.isUploading then (st, none, false)
  else if UPLOAD_BATCH_SIZE ≤ st.buffer.length then
    let chunk := st.buffer.take UPLOAD_BATCH_SIZE
    let rest := st.buffer.drop UPLOAD_BATCH_SIZE
    if ok then ({ buffer := rest, isUploading := false }, some chunk, true)
    else ({ buffer := chunk ++ rest, isUploading := false }, none, true)
  else (st, none, false)

/-- Running record of a pipeline execution: current state, successfully
delivered batches in order, and how many upload attempts have been made
(used to index the success oracle). -/
structure PipeRun (α : Type) where
  st : PipeState α
  sent : List (List α)
  attempts : Nat
deriving DecidableEq, Repr

/-- One decoded sample reaching the pipeline: `enqueueRecord` (push to the
back of the buffer) immediately followed by the `flushIfNeeded` check, as in
the `setData` updater of `handleNotification` (lines 419-425). -/
def pipeStep (ok : Nat → Bool) (r : PipeRun α) (x : α) : PipeRun α :=
  let st1 : PipeState α := { r.st with buffer := r.st.buffer ++ [x] }
  match flushIfNeeded (ok r.attempts) st1 with
  | (st2, delivered, attempted) =>
    { st := st2, sent := r.sent ++ delivered.toList
      attempts := r.attempts + (if attempted then 1 else 0) }

/-- Enqueue a whole list of records one at a time, flushing after each. -/
def runPipeline (ok : Nat → Bool) (xs : List α) : PipeRun α :=
  xs.foldl (pipeStep ok) { st := { buffer := [], isUploading := false }, sent := [], attempts := 0 }

/-! ## Engine state and operations -/

/-- All mutable state of the `useRingDataCollector` hook: the React state
(`deviceId`, `data`, `isCollecting`, `error`), the refs (upload buffer,
busy flag, listener guard, listener handles, connection flag, timers), and
instrumentation counters for the externally visible effects. -/
structure EngineState where
  deviceId : Option String
  isDeviceConnected : Bool
  data : List Entry
  isCollecting : Bool
  error : Option String
  uploadBuffer : List Entry
  isUploading : Bool
  /-- `listenersAddedRef` (line 227). -/
  listenersAdded : Bool
  /-- Label captured by the RXTX notification listener closure (line 482). -/
  rxtxListenerLabel : Option String
  /-- Label captured by the MAIN notification listener closure (line 492). -/
  mainListenerLabel : Option String
  /-- `collectionTimeoutRef` holds a scheduled auto-stop. -/
  collectionTimeoutArmed : Bool
  foregroundActive : Bool
  /-- Number of `BluetoothLe.addListener` notification registrations. -/
  subscribeCount : Nat
  /-- Number of BLE command writes issued. -/
  transportWrites : Nat
  /-- Number of `BluetoothLe.disconnect` calls issued. -/
  disconnectCalls : Nat
  /-- Number of `Filesystem.writeFile` CSV exports attempted. -/
  csvWrites : Nat
deriving DecidableEq, Repr

/-- The state of a freshly mounted hook: everything null/false/empty. -/
def initialEngineState : EngineState :=
  { deviceId := none, isDeviceConnected := false, data := [], isCollecting := false
    error := none, uploadBuffer := [], isUploading := false, listenersAdded := false
    rxtxListenerLabel := none, mainListenerLabel := none, collectionTimeoutArmed := false
    foregroundActive := false, subscribeCount := 0, transportWrites := 0
    disconnectCalls := 0, csvWrites := 0 }

/-- `handleNotification` (lines 367-432) at the engine level: decode the
frame; when an entry is produced, append it to `data`, `enqueueRecord` it,
and run `flushIfNeeded` (with upload outcome `uploadOk`). -/
def handleNotification (bytes : List Nat) (label : String) (timestamp : Nat)
    (uploadOk : Bool) (st : EngineState) : EngineState :=
  match parseNotification bytes label timestamp with
  | none => st
  | some e =>
    let st1 := { st with data := st.data ++ [e], uploadBuffer := st.uploadBuffer ++ [e] }
    match flushIfNeeded uploadOk { buffer := st1.uploadBuffer, isUploading := st1.isUploading } with
    | (ps, _, _) => { st1 with uploadBuffer := ps.buffer, isUploading := ps.isUploading }

/-- Delivery of a notification event on the RXTX characteristic: the
registered listener closure (if any) calls `handleNotification` with the
label it captured at registration time. -/
def deliverRxtxNotification (bytes : List Nat) (timestamp : Nat) (uploadOk : Bool)
    (st : EngineState) : EngineState :=
  match st.rxtxListenerLabel with
  | none => st
  | some lab => handleNotification bytes lab timestamp uploadOk st

/-- Delivery of a notification event on the MAIN characteristic. -/
def deliverMainNotification (bytes : List Nat) (timestamp : Nat) (uploadOk : Bool)
    (st : EngineState) : EngineState :=
  match st.mainListenerLabel with
  | none => st
  | some lab => handleNotification bytes lab timestamp uploadOk st

/-- The body of `startDataCollection` past its two guards (lines 443-537):
start the foreground service, `setIsCollecting(true)`, `setError(null)`,
`setData([])`, the registration of the two listeners guarded by
`listenersAddedRef`, then the BLE setup and the three command writes
(outcome `setupOk`) and the arming of the auto-stop countdown.  Every read
and write in this part goes through live refs and state setters, so the body
is the same whether it is reached from a fresh closure (a direct call) or
from the scheduler's captured closure. -/
def startDataCollectionBody (label : String) (setupOk : Bool) (st : EngineState) : EngineState :=
  let st1 := { st with foregroundActive := true, isCollecting := true
                       error := none, data := [] }
  let st2 :=
    if !st1.listenersAdded then
      { st1 with listenersAdded := true
                 rxtxListenerLabel := some label
                 mainListenerLabel := some label
                 subscribeCount := st1.subscribeCount + 2 }
    else st1
  if setupOk then
    -- query-battery, set-units-metric, enable-raw-sensor writes, then the
    -- auto-stop countdown for the requested duration is armed
    { st2 with transportWrites := st2.transportWrites + 3, collectionTimeoutArmed := true }
  else
    { st2 with error := some "Start error", isCollecting := false, foregroundActive := false }

/-- `startDataCollection` (lines 434-540) as invoked directly (a fresh
closure, whose guards read the current `deviceId`/`isCollecting` render
values and the live `isDeviceConnectedRef`).  `setupOk` is the outcome of
the BLE setup inside the `try` block (`startNotifications` and the three
command writes); failure is modelled at the `startNotifications` step, after
listener registration (which the `catch` does not roll back). -/
def startDataCollection (durationSeconds : Nat) (label : String) (setupOk : Bool)
    (st : EngineState) : EngineState :=
  if st.deviceId.isNone || st.isCollecting then st
  else if !st.isDeviceConnected then { st with error := some "Device not connected" }
  else startDataCollectionBody label setupOk st

/-- The synchronous drain loop of `stopDataCollection` (lines 564-576),
written with an explicit iteration bound so it evaluates structurally: each
successful iteration splices a fixed-size chunk (at least one element) off
the front, so `buf.length + 1` iterations always suffice.  A failed send
puts the chunk back (`unshift`) and breaks; `ok k` is the outcome of the
`k`-th send. -/
def drainBufferAux (ok : Nat → Bool) : Nat → Nat → List α → List α
  | 0, _, buf => buf
  | fuel + 1, k, buf =>
    if buf.isEmpty then buf
    else if ok k then drainBufferAux ok fuel (k + 1) (buf.drop UPLOAD_BATCH_SIZE)
    else buf

/-- The drain loop with its iteration bound instantiated. -/
def drainBuffer (ok : Nat → Bool) (k : Nat) (buf : List α) : List α :=
  drainBufferAux ok (buf.length + 1) k buf

/-- `stopDataCollection` (lines 542-606): cancel the auto-stop timer, write
the disable-raw-sensor command only when a device is connected (best-effort),
drain the upload buffer synchronously, always run `saveToCsv` (one
`Filesystem.writeFile`, which sets the error message if it fails), disconnect
when connected, clear `deviceId` and the collecting flag, and stop the
foreground service.  `ok` is the per-chunk upload outcome, `csvOk` the file
write outcome. -/
def stopDataCollection (ok : Nat → Bool) (csvOk : Bool) (st : EngineState) : EngineState :=
  let st0 := { st with collectionTimeoutArmed := false }
  let st1 :=
    if st0.deviceId.isSome && st0.isDeviceConnected then
      { st0 with transportWrites := st0.transportWrites + 1 }
    else st0
  let st2 := { st1 with uploadBuffer := drainBuffer ok 0 st1.uploadBuffer }
  let st3 :=
    if csvOk then { st2 with csvWrites := st2.csvWrites + 1 }
    else { st2 with csvWrites := st2.csvWrites + 1, error := some "CSV save error" }
  let st4 :=
    if st3.deviceId.isSome && st3.isDeviceConnected then
      { st3 with disconnectCalls := st3.disconnectCalls + 1, isDeviceConnected := false }
    else st3
  { st4 with deviceId := none, isCollecting := false, foregroundActive := false }

/-- `scanAndConnect` (lines 251-306): clear the error, run the 10-second
scan, filter by the `R06` name substring (`found` is the matching device id,
if any), connect with a 20-second timeout (`connectOk`), register the
disconnect observer, and record the device.  The function checks no
precondition on the current state. -/
def scanAndConnect (found : Option String) (connectOk : Bool) (st : EngineState) : EngineState :=
  let st0 := { st with error := none }
  match found with
  | none => { st0 with error := some "Error: No R06 ring found" }
  | some ringId =>
    if connectOk then
      { st0 with isDeviceConnected := true, deviceId := some ringId }
    else { st0 with error := some "Error: connect failed" }

/-- The transport-initiated disconnect observer registered in
`scanAndConnect` (lines 288-295). -/
def onDisconnectEvent (st : EngineState) : EngineState :=
  { st with isDeviceConnected := false, isCollecting := false, deviceId := none }

/-- `startSample`, the periodic-scheduler tick body of
`startPeriodicCollection` (lines 646-661), run once immediately and then
from the `setInterval` callback (line 667).  That closure is created in the
render in which the scheduler was started, so the `deviceId` and
`isCollecting` consts it reads — in its own two guards and again in the
guard of the `startDataCollection` callback it captured — are the values
from scheduler start (`capturedDeviceId`, `capturedIsCollecting`), not the
live state.  The mirror refs created at lines 234-239 precisely to avoid
stale closures are not consulted by these guards; only
`isDeviceConnectedRef`, the other refs and the state setters inside the body
are live. -/
def startSample (sampleSeconds : Nat) (label : String) (setupOk : Bool)
    (capturedDeviceId : Option String) (capturedIsCollecting : Bool)
    (st : EngineState) : EngineState :=
  if capturedDeviceId.isNone then st
  else if capturedIsCollecting then st
  else
    -- the captured startDataCollection closure: its guard reads the same
    -- captured deviceId/isCollecting snapshot, then the live connection ref
    if capturedDeviceId.isNone || capturedIsCollecting then st
    else if !st.isDeviceConnected then { st with error := some "Device not connected" }
    else startDataCollectionBody label setupOk st

/-! ## Concrete frames and states used by the claims -/

/-- The accelerometer frame of the specification's decoder round-trip test:
header `0xA1`, subtype `0x03`, payload bytes `[0x01,0x23,0x04,0x56,0x07,0x89]`. -/
def accelFrame : List Nat := [0xA1, 0x03, 0x01, 0x23, 0x04, 0x56, 0x07, 0x89]

/-- An accelerometer frame whose X axis carries the nibble pattern `0x812`
(`(0x81 <<< 4) ||| (0x02 &&& 0xF)`), exercising the negative sign-extension. -/
def negAccelFrame : List Nat := [0xA1, 0x03, 0x00, 0x00, 0x00, 0x00, 0x81, 0x02]

/-- The 10-byte SpO2 frame of the specification's test vector. -/
def spo2Frame : List Nat := [0xA1, 0x01, 0x00, 0x64, 0x00, 0x5A, 0x00, 0x32, 0x00, 0x05]

/-- A state in mid-collection on device `dev`, with both listeners already
registered under label `L1`. -/
def demoCollecting : EngineState :=
  { initialEngineState with
      deviceId := some "dev", isDeviceConnected := true, isCollecting := true
      listenersAdded := true, rxtxListenerLabel := some "L1"
      mainListenerLabel := some "L1", subscribeCount := 2 }

/-- One decoded SpO2 sample sitting in the log of a live collection window. -/
def midSessionEntry : Entry :=
  { timestamp := 1, label := "L1", payload := "a1016400"
    accX := none, accY := none, accZ := none
    ppg := none, ppg_max := none, ppg_min := none, ppg_diff := none
    spo2 := some 100, spo2_max := none, spo2_min := none, spo2_diff := none }

/-- A live collection window on device `dev` — collecting, auto-stop armed,
one sample already logged — as seen by a scheduler tick whose closure was
captured earlier, while the engine was idle (captured `deviceId` still
`some "dev"`, captured `isCollecting` still `false`). -/
def staleTickState : EngineState :=
  { demoCollecting with data := [midSessionEntry], collectionTimeoutArmed := true }

/-- A state connected to device `A` with no collection running. -/
def connectedStateA : EngineState :=
  { initialEngineState with deviceId := some "A", isDeviceConnected := true }

/-- Two full sessions back to back: connect to device `A`, collect under
label `L1`, stop (which disconnects), connect to device `B`, start collecting
under label `L2`.  All transport operations succeed. -/
def stickyScenario : EngineState :=
  startDataCollection 10 "L2" true
    (scanAndConnect (some "B") true
      (stopDataCollection (fun _ => true) true
        (startDataCollection 10 "L1" true
          (scanAndConnect (some "A") true initialEngineState))))

/-! ## Helper lemmas -/

/-- Code-point case analysis for the hex-digit character class. -/
theorem hexDigit_toNat_cases (c : Char) (h : isHexDigit c = true) :
    48 ≤ c.toNat ∧ c.toNat ≤ 57 ∨ 97 ≤ c.toNat ∧ c.toNat ≤ 102 ∨
      65 ≤ c.toNat ∧ c.toNat ≤ 70 := by
  simp [isHexDigit] at h
  tauto

/-- Hex digits have values below 16. -/
theorem hexVal_lt (c : Char) (h : isHexDigit c = true) : hexVal c < 16 := by
  have hc := hexDigit_toNat_cases c h
  unfold hexVal
  split_ifs <;> omega

/-- `parseInt` on a two-character all-hex string reads both digits: hex
digits are not whitespace, signs, or `x`/`X`, so none of the stripping steps
fire and the digit scan consumes the whole string. -/
theorem jsParseIntHex_pair (c1 c2 : Char) (h1 : isHexDigit c1 = true)
    (h2 : isHexDigit c2 = true) :
    jsParseIntHex [c1, c2] = some ((16 * hexVal c1 + hexVal c2 : Nat) : Int) := by
  have b1 := hexDigit_toNat_cases c1 h1
  have b2 := hexDigit_toNat_cases c2 h2
  simp only [jsParseIntHex, List.dropWhile, jsIsSpace]
  have hsp : (decide (c1.toNat = 32) || decide (c1.toNat = 9) || decide (c1.toNat = 10) ||
      decide (c1.toNat = 13) || decide (c1.toNat = 11) || decide (c1.toNat = 12)) = false := by
    simp
    omega
  rw [hsp]
  simp only [List.head?, Option.any_some]
  have h45 : (decide (c1.toNat = 45) || decide (c1.toNat = 43)) = false := by
    simp
    omega
  have h45' : (decide (c1.toNat = 45)) = false := by
    simp
    omega
  rw [h45, h45']
  simp only [if_false, Bool.false_eq_true]
  have h120 : (decide (c2.toNat = 120) || decide (c2.toNat = 88)) = false := by
    simp
    omega
  simp only [List.tail_cons, List.head?_cons, Option.any_some, h120, Bool.and_false,
    Bool.false_eq_true, if_false]
  simp only [List.takeWhile, h1, h2, List.takeWhile_nil]
  simp only [List.isEmpty_cons, Bool.false_eq_true, if_false]
  simp only [List.foldl_cons, List.foldl_nil]
  push_cast
  ring_nf

/-- The parsing loop produces one entry per character pair. -/
theorem parsePairs_length : ∀ cs : List Char, (parsePairs cs).length = (cs.length + 1) / 2
  | [] => by simp [parsePairs]
  | [c] => by simp [parsePairs]
  | c1 :: c2 :: rest => by
    simp [parsePairs, parsePairs_length rest]
    omega

/-- On an all-hex even-length string the parsing loop agrees with plain
hex-pair decoding. -/
theorem parsePairs_valid : ∀ cs : List Char, cs.all isHexDigit = true → cs.length % 2 = 0 →
    parsePairs cs = (decodeHexPairs cs).map (fun n => some (Int.ofNat n))
  | [], _, _ => by simp [parsePairs, decodeHexPairs]
  | [c], _, hlen => by simp at hlen
  | c1 :: c2 :: rest, h, hlen => by
    simp only [List.all_cons, Bool.and_eq_true] at h
    simp only [parsePairs, decodeHexPairs, List.map_cons]
    rw [jsParseIntHex_pair c1 c2 h.1 h.2.1,
      parsePairs_valid rest h.2.2 (by simp at hlen ⊢; omega)]
    simp

/-- Decoded hex pairs are bytes. -/
theorem decodeHexPairs_lt : ∀ cs : List Char, cs.all isHexDigit = true →
    ∀ b ∈ decodeHexPairs cs, b < 256
  | [], _ => by simp [decodeHexPairs]
  | [c], _ => by simp [decodeHexPairs]
  | c1 :: c2 :: rest, h => by
    simp only [List.all_cons, Bool.and_eq_true] at h
    have l1 := hexVal_lt c1 h.1
    have l2 := hexVal_lt c2 h.2.1
    simp only [decodeHexPairs, List.mem_cons]
    rintro b (rfl | hb)
    · omega
    · exact decodeHexPairs_lt rest h.2.2 b hb

/-- Length of the plain hex-pair decoding. -/
theorem decodeHexPairs_length : ∀ cs : List Char, (decodeHexPairs cs).length = cs.length / 2
  | [] => by simp [decodeHexPairs]
  | [c] => by simp [decodeHexPairs]
  | c1 :: c2 :: rest => by
    simp [decodeHexPairs, decodeHexPairs_length rest]
    omega

/-- Folding the JS sum over a list of defined numbers adds them up. -/
theorem foldl_addOpt_map (l : List Int) (a : Int) :
    (l.map some).foldl addOpt (some a) = some (a + l.sum) := by
  induction l generalizing a with
  | nil => simp [addOpt]
  | cons x xs ih => simp [addOpt, ih, add_assoc]

/-- Case analysis of `startDataCollection` on the subscription counter: a
call either leaves the counter and the registration flag unchanged, or it
performs the one-time registration: the flag was off, the call turns it on
and registers exactly the two listeners. -/
theorem startDataCollection_subscribe_cases (st : EngineState) (n : Nat) (l : String)
    (ok : Bool) :
    ((startDataCollection n l ok st).subscribeCount = st.subscribeCount ∧
      (startDataCollection n l ok st).listenersAdded = st.listenersAdded) ∨
    ((startDataCollection n l ok st).subscribeCount = st.subscribeCount + 2 ∧
      (startDataCollection n l ok st).listenersAdded = true ∧
      st.listenersAdded = false) := by
  unfold startDataCollection startDataCollectionBody
  cases hL : st.listenersAdded <;> split_ifs <;> simp_all

/-! ## Claim theorems -/

/-- C1: a `startCollection` call made while a collection is already active
(`isCollecting` true) under the same connected `deviceId` is a complete
no-op — in particular the sample log and the subscription count are
unchanged; once the listener guard is set, no call registers another
listener; and any two consecutive start attempts register at most one
listener pair in total. -/
theorem startDataCollection_repeat_noop :
    (∀ (st : EngineState) (d : String) (n : Nat) (l : String) (ok : Bool),
        st.deviceId = some d → st.isCollecting = true →
        startDataCollection n l ok st = st) ∧
    (∀ (st : EngineState) (n : Nat) (l : String) (ok : Bool),
        st.listenersAdded = true →
        (startDataCollection n l ok st).subscribeCount = st.subscribeCount) ∧
    (∀ (st : EngineState) (n1 n2 : Nat) (l1 l2 : String) (ok1 ok2 : Bool),
        (startDataCollection n2 l2 ok2 (startDataCollection n1 l1 ok1 st)).subscribeCount ≤
          st.subscribeCount + 2) := by
  refine ⟨?_, ?_, ?_⟩
  · intro st d n l ok hdev hcoll
    unfold startDataCollection
    simp [hcoll]
  · intro st n l ok h
    rcases startDataCollection_subscribe_cases st n l ok with ⟨h1, _⟩ | ⟨_, _, h3⟩
    · exact h1
    · rw [h] at h3
      exact absurd h3 (by simp)
  · intro st n1 n2 l1 l2 ok1 ok2
    rcases startDataCollection_subscribe_cases st n1 l1 ok1 with ⟨h1, h2⟩ | ⟨h1, h2, h3⟩ <;>
      rcases startDataCollection_subscribe_cases (startDataCollection n1 l1 ok1 st) n2 l2 ok2
        with ⟨g1, g2⟩ | ⟨g1, g2, g3⟩ <;> first | omega | simp_all

/-- Witness for C1 at a concrete mid-collection state. -/
theorem startDataCollection_repeat_noop_witness :
    startDataCollection 60 "w" true demoCollecting = demoCollecting ∧
    (startDataCollection 60 "w" true demoCollecting).subscribeCount =
      demoCollecting.subscribeCount :=
  ⟨startDataCollection_repeat_noop.1 demoCollecting "dev" 60 "w" true rfl rfl,
    startDataCollection_repeat_noop.2.1 demoCollecting 60 "w" true rfl⟩

/-- C3: the claim fails on the code.  A scheduler tick whose captured
snapshot is stale — taken while the engine was idle, so the captured
`isCollecting` is `false` — that fires while a collection window is live
(`isCollecting = true`) passes both stale guards and starts a new collection
session: it wipes the live sample log, issues the three command writes
again, and re-arms the auto-stop countdown.  In contrast, a tick whose
captured snapshot already said collecting (such as the immediate first
sample under a live window) is skipped, and so is a direct
`startDataCollection` call, whose fresh closure reads the live flag — which
is what the claim (and the mirror refs the code creates but does not
consult) intended. -/
theorem startSample_stale_tick_code_bug :
    staleTickState.isCollecting = true ∧
    staleTickState.data ≠ [] ∧
    (startSample 120 "periodic" true (some "dev") false staleTickState).data = [] ∧
    (startSample 120 "periodic" true (some "dev") false staleTickState).transportWrites =
      staleTickState.transportWrites + 3 ∧
    (startSample 120 "periodic" true (some "dev") false staleTickState).collectionTimeoutArmed =
      true ∧
    startSample 120 "periodic" true (some "dev") true staleTickState = staleTickState ∧
    startDataCollection 120 "periodic" true staleTickState = staleTickState := by
  exact ⟨rfl, by decide, by decide, by decide, by decide, by decide, by decide⟩

/-- C4 counterexample: `stopCollection` called in the Idle state (no device,
nothing collected) still performs a durable CSV export — `saveToCsv` is
called unconditionally — contradicting the claim that no export write
happens. -/
theorem stopDataCollection_idle_csv_counterexample :
    (stopDataCollection (fun _ => true) true initialEngineState).csvWrites = 1 ∧
    initialEngineState.csvWrites = 0 := by
  exact ⟨rfl, rfl⟩

/-- C4 amended: `stopCollection` from Idle (no device connected, empty
upload buffer) makes no transport call (no disable-command write, no
disconnect) and, when the CSV write succeeds, leaves the error unchanged —
but it does perform exactly one durable CSV export write. -/
theorem stopDataCollection_idle_frame :
    ∀ (st : EngineState) (ok : Nat → Bool),
      st.deviceId = none → st.isDeviceConnected = false → st.uploadBuffer = [] →
      (stopDataCollection ok true st).transportWrites = st.transportWrites ∧
      (stopDataCollection ok true st).disconnectCalls = st.disconnectCalls ∧
      (stopDataCollection ok true st).error = st.error ∧
      (stopDataCollection ok true st).csvWrites = st.csvWrites + 1 := by
  intro st ok hdev hconn hbuf
  unfold stopDataCollection drainBuffer drainBufferAux
  simp [hdev, hconn, hbuf]

/-- Witness for the amended C4 at the concrete Idle state. -/
theorem stopDataCollection_idle_frame_witness :
    (stopDataCollection (fun _ => true) true initialEngineState).transportWrites = 0 ∧
    (stopDataCollection (fun _ => true) true initialEngineState).disconnectCalls = 0 ∧
    (stopDataCollection (fun _ => true) true initialEngineState).error = none := by
  have h := stopDataCollection_idle_frame initialEngineState (fun _ => true) rfl rfl rfl
  exact ⟨h.1, h.2.1, h.2.2.1⟩

/-- C5 counterexample: `scanAndConnect` invoked while device `A` is already
connected is not rejected — no `AlreadyConnected` error is raised (the error
slot ends up cleared) and the connection state is not left unchanged: the
newly scanned device `B` replaces `A`. -/
theorem scanAndConnect_duplicate_counterexample :
    (scanAndConnect (some "B") true connectedStateA).deviceId = some "B" ∧
    (scanAndConnect (some "B") true connectedStateA).deviceId ≠ connectedStateA.deviceId ∧
    (scanAndConnect (some "B") true connectedStateA).error = none := by
  refine ⟨rfl, ?_, rfl⟩
  simp [scanAndConnect, connectedStateA, initialEngineState]

/-- C5 amended: `scanAndConnect` checks no precondition on the session
state.  From any state — connected or not — a call whose scan finds a ring
and whose connect succeeds clears the error and installs the new device id
as the connection. -/
theorem scanAndConnect_no_guard :
    ∀ (st : EngineState) (rid : String),
      (scanAndConnect (some rid) true st).deviceId = some rid ∧
      (scanAndConnect (some rid) true st).error = none ∧
      (scanAndConnect (some rid) true st).isDeviceConnected = true := by
  intro st rid
  simp [scanAndConnect]

/-- C10: the listener-registration guard `listenersAddedRef` is set by the
first registering `startCollection` and never reset by any engine operation
(start, stop, connect, notification delivery), so the listener closures —
and the session label they captured at first registration — survive device
changes; a full disconnect/reconnect/restart cycle with a new label still
decodes samples under the first session's label. -/
theorem listener_registration_sticky :
    (∀ (st : EngineState) (n : Nat) (l : String) (ok : Bool),
        st.listenersAdded = true →
        (startDataCollection n l ok st).listenersAdded = true ∧
        (startDataCollection n l ok st).rxtxListenerLabel = st.rxtxListenerLabel ∧
        (startDataCollection n l ok st).mainListenerLabel = st.mainListenerLabel) ∧
    (∀ (st : EngineState) (ok : Nat → Bool) (csvOk : Bool),
        (stopDataCollection ok csvOk st).listenersAdded = st.listenersAdded ∧
        (stopDataCollection ok csvOk st).rxtxListenerLabel = st.rxtxListenerLabel ∧
        (stopDataCollection ok csvOk st).mainListenerLabel = st.mainListenerLabel) ∧
    (∀ (st : EngineState) (found : Option String) (c : Bool),
        (scanAndConnect found c st).listenersAdded = st.listenersAdded ∧
        (scanAndConnect found c st).rxtxListenerLabel = st.rxtxListenerLabel ∧
        (scanAndConnect found c st).mainListenerLabel = st.mainListenerLabel) ∧
    (∀ (bytes : List Nat) (l : String) (t : Nat) (u : Bool) (st : EngineState),
        (handleNotification bytes l t u st).listenersAdded = st.listenersAdded ∧
        (handleNotification bytes l t u st).rxtxListenerLabel = st.rxtxListenerLabel ∧
        (handleNotification bytes l t u st).mainListenerLabel = st.mainListenerLabel) ∧
    (stickyScenario.rxtxListenerLabel = some "L1" ∧
      stickyScenario.mainListenerLabel = some "L1" ∧
      stickyScenario.subscribeCount = 2 ∧
      stickyScenario.deviceId = some "B" ∧
      (deliverRxtxNotification spo2Frame 99 true stickyScenario).data.map Entry.label =
        ["L1"]) := by
  refine ⟨?_, ?_, ?_, ?_, ?_⟩
  · intro st n l ok h
    unfold startDataCollection startDataCollectionBody
    split_ifs <;> simp_all
  · intro st ok csvOk
    unfold stopDataCollection
    refine ⟨?_, ?_, ?_⟩ <;>
      simp [apply_ite EngineState.listenersAdded, apply_ite EngineState.rxtxListenerLabel,
        apply_ite EngineState.mainListenerLabel]
  · intro st found c
    unfold scanAndConnect
    cases found <;> simp [*] <;> split_ifs <;> simp_all
  · intro bytes l t u st
    unfold handleNotification
    cases parseNotification bytes l t <;> simp
  · refine ⟨rfl, rfl, rfl, rfl, by decide⟩

/-- Witness for C10 at a concrete state with the guard already set. -/
theorem listener_registration_sticky_witness :
    (startDataCollection 60 "other" true demoCollecting).rxtxListenerLabel =
      demoCollecting.rxtxListenerLabel :=
  (listener_registration_sticky.1 demoCollecting 60 "other" true rfl).2.1

set_option maxRecDepth 40000 in
/-- C2: the flush check after an enqueue does nothing while an upload is in
flight or while the buffer holds fewer than the batch size of 50 records;
when it fires it removes exactly the front 50-record slice and sends it, and
a failed send restores the buffer exactly (the slice back at the front in
original order).  Concretely, 125 enqueued samples with all uploads
succeeding auto-flush exactly the two front batches and leave the 25
youngest records pending; failing the second batch leaves exactly those 50
records at the front (they are the whole buffer at that point), and the next
successful flush sends exactly that requeued slice. -/
theorem uploadPipeline_batch_discipline :
    (∀ (st : PipeState Nat) (ok : Bool),
        st.isUploading = true → flushIfNeeded ok st = (st, none, false)) ∧
    (∀ (st : PipeState Nat) (ok : Bool),
        st.isUploading = false → st.buffer.length < UPLOAD_BATCH_SIZE →
        flushIfNeeded ok st = (st, none, false)) ∧
    (∀ st : PipeState Nat,
        st.isUploading = false → UPLOAD_BATCH_SIZE ≤ st.buffer.length →
        flushIfNeeded true st =
          ({ buffer := st.buffer.drop UPLOAD_BATCH_SIZE, isUploading := false },
            some (st.buffer.take UPLOAD_BATCH_SIZE), true) ∧
        flushIfNeeded false st = (st, none, true)) ∧
    ((runPipeline (fun _ => true) (List.range 125)).st.buffer = List.range' 100 25 ∧
      (runPipeline (fun _ => true) (List.range 125)).sent =
        [List.range' 0 50, List.range' 50 50]) ∧
    ((runPipeline (fun n => n != 1) (List.range 100)).st.buffer = List.range' 50 50 ∧
      (runPipeline (fun n => n != 1) (List.range 100)).sent = [List.range' 0 50] ∧
      (runPipeline (fun n => n != 1) (List.range 125)).sent =
        [List.range' 0 50, List.range' 50 50] ∧
      (runPipeline (fun n => n != 1) (List.range 125)).st.buffer = List.range' 100 25) := by
  refine ⟨?_, ?_, ?_, ?_, ?_⟩
  · intro st ok h
    unfold flushIfNeeded
    simp [h]
  · intro st ok h hlen
    unfold flushIfNeeded
    simp [h]
    omega
  · intro st h hlen
    constructor
    · unfold flushIfNeeded
      simp [h, hlen]
    · unfold flushIfNeeded
      simp [h, hlen]
      cases st with
      | mk buffer isUploading =>
        simp at h
        simp [h, List.take_append_drop]
  · exact ⟨by decide, by decide⟩
  · exact ⟨by decide, by decide, by decide, by decide⟩

/-- Witness for C2: the fire case applied at a concrete 50-record buffer. -/
theorem uploadPipeline_batch_discipline_witness :
    flushIfNeeded true ({ buffer := List.range 50, isUploading := false } : PipeState Nat) =
      ({ buffer := (List.range 50).drop UPLOAD_BATCH_SIZE, isUploading := false },
        some ((List.range 50).take UPLOAD_BATCH_SIZE), true) :=
  (uploadPipeline_batch_discipline.2.2.1
    { buffer := List.range 50, isUploading := false } rfl (by decide)).1

/-- C6 counterexample: `createCommand` does not fail on invalid input.  An
odd-length hex string still yields a 16-byte frame (the trailing lone digit
is parsed as a byte), a non-hex string still yields a 16-byte frame (the
`NaN` bytes are stored as 0 and force the checksum to 0), and a 16-byte
input is not rejected — it yields a 17-byte result. -/
theorem createCommand_invalid_input_counterexample :
    createCommand "abc" = [0xab, 0x0c, 0, 0, 0, 0, 0, 0, 0, 0, 0, 0, 0, 0, 0, 0xb7] ∧
    createCommand "zz" = List.replicate 16 0 ∧
    (createCommand "00000000000000000000000000000000").length = 17 := by
  exact ⟨by decide, by decide, by decide⟩

/-- C6 amended: `createCommand` performs no input validation and never
fails.  Every string produces a result of length `max ⌈digits/2⌉ 15 + 1`
(so 16 bytes only when the input decodes to at most 15 bytes): an
odd-length input parses its trailing lone digit as a byte; a non-hex pair
parses as `NaN`, is stored as byte 0 and zeroes the checksum; an input
longer than 30 hex digits yields an oversized frame instead of an error. -/
theorem createCommand_no_validation :
    (∀ s : String, (createCommand s).length = max ((s.data.length + 1) / 2) 15 + 1) ∧
    createCommand "f" = [0x0f, 0, 0, 0, 0, 0, 0, 0, 0, 0, 0, 0, 0, 0, 0, 0x0f] ∧
    createCommand "qq" = List.replicate 16 0 ∧
    (createCommand "11111111111111111111111111111111").length = 17 := by
  refine ⟨?_, by decide, by decide, by decide⟩
  intro s
  unfold createCommand
  simp [parsePairs_length]
  omega

/-- `Uint8Array` storage is the identity on bytes. -/
theorem toUint8_ofNat (n : Nat) (hn : n < 256) : toUint8 (some (Int.ofNat n)) = n := by
  simp only [toUint8, Int.ofNat_eq_coe]
  omega

set_option maxRecDepth 4000 in
/-- C7: on every valid input — an even-length all-hex string of at most 30
digits — `createCommand` returns exactly 16 bytes: the decoded bytes
right-padded with zero bytes to 15, followed by one checksum byte equal to
the sum of the first 15 bytes mod 256. -/
theorem createCommand_valid_frame (s : String) (h : validCommandHex s = true) :
    (createCommand s).length = 16 ∧
    createCommand s =
      decodeHexPairs s.data ++
        List.replicate (15 - (decodeHexPairs s.data).length) 0 ++
        [(decodeHexPairs s.data).sum % 256] ∧
    (createCommand s).getLast? = some (((createCommand s).take 15).sum % 256) := by
  have h' : s.data.all isHexDigit = true ∧ (s.data.length % 2 == 0) = true ∧
      decide (s.data.length ≤ 30) = true := by
    unfold validCommandHex at h
    simp only [Bool.and_eq_true] at h
    exact ⟨h.1.1, h.1.2, h.2⟩
  have hall : s.data.all isHexDigit = true := h'.1
  have heven : s.data.length % 2 = 0 := by simpa using h'.2.1
  have hle : s.data.length ≤ 30 := of_decide_eq_true h'.2.2
  have hDlen : (decodeHexPairs s.data).length = s.data.length / 2 :=
    decodeHexPairs_length s.data
  have hDlt : ∀ b ∈ decodeHexPairs s.data, b < 256 := decodeHexPairs_lt s.data hall
  have hPlen : (decodeHexPairs s.data ++
      List.replicate (15 - (decodeHexPairs s.data).length) 0).length = 15 := by
    simp
    omega
  have hPlt : ∀ b ∈ decodeHexPairs s.data ++
      List.replicate (15 - (decodeHexPairs s.data).length) 0, b < 256 := by
    intro b hb
    rcases List.mem_append.mp hb with hb | hb
    · exact hDlt b hb
    · have := List.eq_of_mem_replicate hb
      omega
  have hPsum : (decodeHexPairs s.data ++
      List.replicate (15 - (decodeHexPairs s.data).length) 0).sum =
      (decodeHexPairs s.data).sum := by
    simp
  have key : createCommand s =
      (decodeHexPairs s.data ++ List.replicate (15 - (decodeHexPairs s.data).length) 0) ++
        [(decodeHexPairs s.data).sum % 256] := by
    simp only [createCommand]
    rw [parsePairs_valid s.data hall heven]
    have hrep : List.replicate (15 - ((decodeHexPairs s.data).map
        (fun n => some (Int.ofNat n))).length) (some (0 : Int)) =
        (List.replicate (15 - (decodeHexPairs s.data).length) (0 : Nat)).map
          (fun n => some (Int.ofNat n)) := by
      simp [List.map_replicate]
    rw [hrep, ← List.map_append]
    have hfold : ((decodeHexPairs s.data ++
        List.replicate (15 - (decodeHexPairs s.data).length) 0).map
          (fun n => some (Int.ofNat n))).foldl addOpt (some 0) =
        some ((decodeHexPairs s.data ++
          List.replicate (15 - (decodeHexPairs s.data).length) 0).sum : Int) := by
      have hmm : (decodeHexPairs s.data ++
          List.replicate (15 - (decodeHexPairs s.data).length) 0).map
            (fun n => some (Int.ofNat n)) =
          ((decodeHexPairs s.data ++
            List.replicate (15 - (decodeHexPairs s.data).length) 0).map
              (fun n => (Int.ofNat n))).map some := by
        simp [List.map_map]
      rw [hmm, foldl_addOpt_map]
      simp [Nat.cast_list_sum]
    rw [hfold]
    have hck : ((((decodeHexPairs s.data ++
        List.replicate (15 - (decodeHexPairs s.data).length) 0).sum : Int) % 256 + 256) % 256) =
        Int.ofNat ((decodeHexPairs s.data).sum % 256) := by
      rw [hPsum]
      simp only [Int.ofNat_eq_coe]
      omega
    rw [List.map_append]
    congr 1
    · rw [List.map_map]
      have hid : List.map (toUint8 ∘ fun n => some (Int.ofNat n))
          (decodeHexPairs s.data ++ List.replicate (15 - (decodeHexPairs s.data).length) 0) =
          List.map id (decodeHexPairs s.data ++
            List.replicate (15 - (decodeHexPairs s.data).length) 0) :=
        List.map_congr_left (fun b hb => toUint8_ofNat b (hPlt b hb))
      rw [hid, List.map_id]
    · simp only [List.map_cons, List.map_nil, hck]
      rw [toUint8_ofNat _ (Nat.mod_lt _ (by omega))]
  refine ⟨?_, ?_, ?_⟩
  · rw [key]
    simp
    omega
  · rw [key, List.append_assoc]
  · rw [key]
    have htake : ((decodeHexPairs s.data ++
        List.replicate (15 - (decodeHexPairs s.data).length) 0) ++
          [(decodeHexPairs s.data).sum % 256]).take 15 =
        decodeHexPairs s.data ++ List.replicate (15 - (decodeHexPairs s.data).length) 0 := by
      rw [List.take_append_of_le_length (le_of_eq hPlen.symm),
        List.take_of_length_le (le_of_eq hPlen)]
    rw [htake, hPsum]
    simp

/-- Witness for C7 at the enable-raw-sensor command payload `a104` used by
the engine. -/
theorem createCommand_valid_frame_witness :
    validCommandHex "a104" = true ∧ (createCommand "a104").length = 16 :=
  ⟨by decide, (createCommand_valid_frame "a104" (by decide)).1⟩

/-- C8 counterexample: decoding the accelerometer frame with
bytes[2..8) = `[0x01,0x23,0x04,0x56,0x07,0x89]` does not give the claimed
values 291/1110/1929.  The nibble packing `(hi <<< 4) ||| (lo &&& 0xF)`
combines one full byte with one nibble, so the decoded values are
`0x013 = 19`, `0x046 = 70` and `0x079 = 121`. -/
theorem parseNotification_accel_values_counterexample :
    (parseNotification accelFrame "lab" 0).bind Entry.accY = some 19 ∧
    (parseNotification accelFrame "lab" 0).bind Entry.accY ≠ some 291 ∧
    (parseNotification accelFrame "lab" 0).bind Entry.accZ = some 70 ∧
    (parseNotification accelFrame "lab" 0).bind Entry.accZ ≠ some 1110 ∧
    (parseNotification accelFrame "lab" 0).bind Entry.accX = some 121 ∧
    (parseNotification accelFrame "lab" 0).bind Entry.accX ≠ some 1929 := by
  exact ⟨by decide, by decide, by decide, by decide, by decide, by decide⟩

/-- C8 amended: an accelerometer frame (header `0xA1`, subtype `0x03`)
decodes three signed 12-bit values under the nibble-interleaved layout
X = `(b6 <<< 4) ||| (b7 &&& 0xF)`, Y from bytes 2-3, Z from bytes 4-5, each
sign-extended by subtracting `0x1000` when bit `0x800` is set; for the frame
with bytes[2..8) = `[0x01,0x23,0x04,0x56,0x07,0x89]` the decoded values are
accelY = 19, accelZ = 70, accelX = 121, and the packed pattern `0x812`
decodes to `-2030`. -/
theorem parseNotification_accel_decoding :
    (∀ (bs : List Nat) (l : String) (t : Nat),
        bs.get? 0 = some 0xA1 → bs.get? 1 = some 0x03 →
        (parseNotification bs l t).bind Entry.accX =
          some (signExt12 ((byteAt bs 6 <<< 4) ||| (byteAt bs 7 &&& 0x0f))) ∧
        (parseNotification bs l t).bind Entry.accY =
          some (signExt12 ((byteAt bs 2 <<< 4) ||| (byteAt bs 3 &&& 0x0f))) ∧
        (parseNotification bs l t).bind Entry.accZ =
          some (signExt12 ((byteAt bs 4 <<< 4) ||| (byteAt bs 5 &&& 0x0f)))) ∧
    ((parseNotification accelFrame "lab" 0).bind Entry.accY = some 19 ∧
      (parseNotification accelFrame "lab" 0).bind Entry.accZ = some 70 ∧
      (parseNotification accelFrame "lab" 0).bind Entry.accX = some 121) ∧
    signExt12 0x812 = -2030 ∧
    (parseNotification negAccelFrame "lab" 0).bind Entry.accX = some (-2030) := by
  refine ⟨?_, ⟨by decide, by decide, by decide⟩, by decide, by decide⟩
  intro bs l t h0 h1
  have hne : bs.isEmpty = false := by
    cases bs with
    | nil => simp at h0
    | cons b rest => rfl
  simp only [List.get?_eq_getElem?] at h0 h1
  simp [parseNotification, hne, h0, h1]

/-- Witness for the general layout clause of C8 at the concrete frame. -/
theorem parseNotification_accel_decoding_witness :
    (parseNotification accelFrame "lab" 0).bind Entry.accX =
      some (signExt12 ((byteAt accelFrame 6 <<< 4) ||| (byteAt accelFrame 7 &&& 0x0f))) :=
  (parseNotification_accel_decoding.1 accelFrame "lab" 0 rfl rfl).1

/-- C9 counterexample: on a truncated SpO2 frame `[0xA1, 0x01]` the
out-of-range reads are not "left absent": the 16-bit value computed from
`bytes[2]` and `bytes[3]` coerces the `undefined` reads to 0 and populates
`spo2` with 0 (while the directly assigned `spo2_max` does stay absent). -/
theorem parseNotification_short_frame_counterexample :
    (parseNotification [0xA1, 0x01] "lab" 0).bind Entry.spo2 = some 0 ∧
    (parseNotification [0xA1, 0x01] "lab" 0).bind Entry.spo2_max = none := by
  exact ⟨by decide, by decide⟩

/-- C9 amended: decoding is total — an empty frame yields a skip, a frame
yields a sample exactly when its first byte is `0xA1`, and no access ever
fails: on truncated frames of the known subtypes the out-of-range reads
behave like JS `undefined`, so directly assigned byte fields (`spo2_max`,
`spo2_min`, `spo2_diff`) are left absent while arithmetically computed
fields (`spo2`, the four `ppg` fields, the three accel axes) are populated
with 0. -/
theorem parseNotification_totality :
    (∀ (l : String) (t : Nat), parseNotification [] l t = none) ∧
    (∀ (bs : List Nat) (l : String) (t : Nat),
        (parseNotification bs l t).isSome = true ↔ bs.get? 0 = some 0xA1) ∧
    ((parseNotification [0xA1, 0x01] "lab" 0).bind Entry.spo2 = some 0 ∧
      (parseNotification [0xA1, 0x01] "lab" 0).bind Entry.spo2_max = none ∧
      (parseNotification [0xA1, 0x01] "lab" 0).bind Entry.spo2_min = none ∧
      (parseNotification [0xA1, 0x01] "lab" 0).bind Entry.spo2_diff = none) ∧
    ((parseNotification [0xA1, 0x02] "lab" 0).bind Entry.ppg = some 0 ∧
      (parseNotification [0xA1, 0x02] "lab" 0).bind Entry.ppg_max = some 0 ∧
      (parseNotification [0xA1, 0x02] "lab" 0).bind Entry.ppg_min = some 0 ∧
      (parseNotification [0xA1, 0x02] "lab" 0).bind Entry.ppg_diff = some 0) ∧
    ((parseNotification [0xA1, 0x03] "lab" 0).bind Entry.accX = some 0 ∧
      (parseNotification [0xA1, 0x03] "lab" 0).bind Entry.accY = some 0 ∧
      (parseNotification [0xA1, 0x03] "lab" 0).bind Entry.accZ = some 0) := by
  refine ⟨?_, ?_, ⟨by decide, by decide, by decide, by decide⟩,
    ⟨by decide, by decide, by decide, by decide⟩, ⟨by decide, by decide, by decide⟩⟩
  · intro l t
    rfl
  · intro bs l t
    cases bs with
    | nil => simp [parseNotification]
    | cons b rest =>
      by_cases hb : b = 0xA1
      · subst hb
        refine iff_of_true ?_ rfl
        simp only [parseNotification]
        simp only [List.isEmpty_cons, Bool.false_eq_true, if_false]
        rw [if_pos (show (0xA1 :: rest).get? 0 = some 0xA1 from rfl)]
        split
        · rfl
        · split
          · rfl
          · split
            · rfl
            · rfl
      · simp [parseNotification, hb]
